import Mathlib

/-!
Shallow embedding of the MSF60 time-signal decoder
(`src/MSF60decode/MSF60decode.c`, `src/MSF60decode/MSF60decode.h`).

Machine integers are modelled as `Nat` with explicit mod-`2^32` arithmetic
where the C code relies on `uint32_t` wraparound (interval subtraction and
`abs()` on a wrapped difference in `GetWidth`).  The two 8-byte bit arrays
`A_bits` / `B_bits` are modelled as byte maps `Nat → Nat`; the bit index
arithmetic (`bitnum >> 3`, `bitnum & 7`) is kept exactly as in the source.
The interrupt handler `HandleCarrierEvent` becomes a step function on an
explicit state record; client notifications (`ClientEventNotify`) and the
bit indices passed to `setBit` are returned as explicit outputs of a step
so that observable behaviour can be stated.
-/

namespace MSF60

/-- Allow plus or minus 30ms on signal timings (`PULSE_MARGIN` in the source). -/
def PULSE_MARGIN : Nat := 30

/-- `CARRIER_ON` GPIO level (the receiver board inverts the sense). -/
def CARRIER_ON : Nat := 0

/-- `CARRIER_OFF` GPIO level. -/
def CARRIER_OFF : Nat := 1

/-- The possible classified carrier ON/OFF pulse widths (`eWidth` enum). -/
inductive eWidth where
  | eWidth_100
  | eWidth_200
  | eWidth_300
  | eWidth_500
  | eWidth_700
  | eWidth_800
  | eWidth_900
  | eWidth_INVALID
deriving DecidableEq, Repr

/-- Decoder event types a client can be notified about (`eMSFEventType`). -/
inductive eMSFEventType where
  | MSF_EVENT_SYNC
  | MSF_EVENT_SYNC_LOST
  | MSF_EVENT_DATETIME_UPDATED
deriving DecidableEq, Repr

open eMSFEventType

/-- Numeric value of an `eMSFEventType` member, as in the C enum. -/
def eMSFEventType.val : eMSFEventType → Nat
  | MSF_EVENT_SYNC => 1
  | MSF_EVENT_SYNC_LOST => 2
  | MSF_EVENT_DATETIME_UPDATED => 4

/-- The `sMSFDateTime` structure returning decoded date/time information. -/
structure sMSFDateTime where
  bHasValidTime : Bool
  bDateTimeUpdated : Bool
  Year : Nat
  Month : Nat
  Day : Nat
  Hour : Nat
  Minute : Nat
  DOW : Nat
  DST : Nat
deriving DecidableEq, Repr

/-- The all-zero `sMSFDateTime`, as produced by `memset(pdata, 0, ...)`
and by the static initialisation of `LocalDateTime`. -/
def zeroDateTime : sMSFDateTime :=
  { bHasValidTime := false, bDateTimeUpdated := false,
    Year := 0, Month := 0, Day := 0, Hour := 0, Minute := 0, DOW := 0, DST := 0 }

/-- `a - b` in `uint32_t` arithmetic (two's-complement wraparound),
used for all interval computations `event_time - T_...` in the source. -/
def sub32 (a b : Nat) : Nat := (a + (2 ^ 32 - b % 2 ^ 32)) % 2 ^ 32

/-- `abs()` of a `uint32_t` difference `d` reinterpreted as a signed 32-bit
integer, as in `abs(width - 100)` in `GetWidth`: values below `2^31` are
non-negative, values at or above represent `d - 2^32`. -/
def abs32 (d : Nat) : Nat := if d < 2 ^ 31 then d else 2 ^ 32 - d

/-- `GetWidth`: classify a measured ON/OFF interval (ms) against the possible
pulse widths of a valid signal, within `PULSE_MARGIN`. -/
def GetWidth (width : Nat) : eWidth :=
  if abs32 (sub32 width 100) < PULSE_MARGIN then .eWidth_100
  else if abs32 (sub32 width 200) < PULSE_MARGIN then .eWidth_200
  else if abs32 (sub32 width 300) < PULSE_MARGIN then .eWidth_300
  else if abs32 (sub32 width 500) < PULSE_MARGIN then .eWidth_500
  else if abs32 (sub32 width 700) < PULSE_MARGIN then .eWidth_700
  else if abs32 (sub32 width 800) < PULSE_MARGIN then .eWidth_800
  else if abs32 (sub32 width 900) < PULSE_MARGIN then .eWidth_900
  else .eWidth_INVALID

/-- A bit array (`uint8_t[8]` in the source) as a map from byte index to
byte value. -/
def BitArr : Type := Nat → Nat

/-- `setBit`: set or clear bit `bitnum` (byte `bitnum>>3`, mask
`1 << (bitnum&7)`) in the A or B array. -/
def setBit (bitarray : BitArr) (bitnum : Nat) (bSet : Bool) : BitArr :=
  fun i =>
    if i = bitnum >>> 3 then
      if bSet then bitarray i ||| (1 <<< (bitnum &&& 7))
      else bitarray i &&& (255 ^^^ (1 <<< (bitnum &&& 7)))
    else bitarray i

/-- `getBit`: read bit `bitnum` from the A or B array. -/
def getBit (bitarray : BitArr) (bitnum : Nat) : Bool :=
  (bitarray (bitnum >>> 3) &&& (1 <<< (bitnum &&& 7))) != 0

/-- The `BCD[]` weight table of `ExtractBCD`. -/
def BCDweights : List Nat := [1, 2, 4, 8, 10, 20, 40, 80]

/-- `ExtractBCD`: decode a BCD bitfield, iterating bit positions from
`lsbit` down to `msbit` (digit `d` reads bit `lsbit - d`) and adding the
successive `BCD[]` weight for each set bit. -/
def ExtractBCD (bitarray : BitArr) (msbit lsbit : Nat) : Nat :=
  (List.range (lsbit + 1 - msbit)).foldl
    (fun result digit =>
      if getBit bitarray (lsbit - digit) then result + BCDweights.getD digit 0
      else result) 0

/-- `CheckOddParity`: the bits `lo..hi` of `bitarray` together with the
`parity` parameter must contain an odd number of set bits. -/
def CheckOddParity (bitarray : BitArr) (lo hi : Nat) (parity : Bool) : Bool :=
  (((List.range' lo (hi + 1 - lo)).countP (fun b => getBit bitarray b)
      + if parity then 1 else 0) &&& 1) == 1

/-- The reasons `ValidateBCD` can reject a frame, one per `LOGprintf`
diagnostic in the source. -/
inductive VErr where
  | errA52Set
  | errFixedBitClear (bitnum : Nat)
  | errA59Set
  | errParity17to24
  | errParity25to35
  | errParity36to38
  | errParity39to51
deriving DecidableEq, Repr

/-- `ValidateBCD`: validate the received bit stream as per the NPL
specification; `none` means valid, `some e` identifies the first failing
check (the 53..58 loop is unrolled since its bounds are constants). -/
def ValidateBCD (A B : BitArr) : Option VErr :=
  if getBit A 52 then some .errA52Set
  else if !getBit A 53 then some (.errFixedBitClear 53)
  else if !getBit A 54 then some (.errFixedBitClear 54)
  else if !getBit A 55 then some (.errFixedBitClear 55)
  else if !getBit A 56 then some (.errFixedBitClear 56)
  else if !getBit A 57 then some (.errFixedBitClear 57)
  else if !getBit A 58 then some (.errFixedBitClear 58)
  else if getBit A 59 then some .errA59Set
  else if !CheckOddParity A 17 24 (getBit B 54) then some .errParity17to24
  else if !CheckOddParity A 25 35 (getBit B 55) then some .errParity25to35
  else if !CheckOddParity A 36 38 (getBit B 56) then some .errParity36to38
  else if !CheckOddParity A 39 51 (getBit B 57) then some .errParity39to51
  else none

/-- The complete mutable state of the decoder: the file-level statics of
`MSF60decode.c` together with the function-local statics of
`HandleCarrierEvent`.  The client callback pointer is modelled by the
Boolean `pfClientEventCallback` (registered or not). -/
structure DecoderState where
  bSyncedFlag : Bool
  A_bits : BitArr
  B_bits : BitArr
  LocalDateTime : sMSFDateTime
  pClientDateTime : Option sMSFDateTime
  pfClientEventCallback : Bool
  ui32ClientEventMask : Nat
  T_LastOnStart : Nat
  T_LastOffStart : Nat
  eLastOnWidth : eWidth
  eLastOffWidth : eWidth
  T_CellStart : Nat
  nBitNum : Nat
  bHalfSync : Bool
  bResyncNeeded : Bool

/-- `ClientEventNotify`: the list of events delivered to the client callback
for one notification request (singleton if a callback is registered and the
event type is unmasked, else empty). -/
def ClientEventNotify (s : DecoderState) (ev : eMSFEventType) : List eMSFEventType :=
  if s.pfClientEventCallback && (s.ui32ClientEventMask &&& ev.val ≠ 0) then [ev] else []

/-- Result of `DecodeFrame`: return value, updated state, the
`ClientEventNotify` requests made, and the events actually delivered. -/
structure DecodeResult where
  ok : Bool
  state : DecoderState
  calls : List eMSFEventType
  delivered : List eMSFEventType

/-- `DecodeFrame`: validate the completed frame; if valid, extract all
calendar fields, set both validity flags, copy the result to the client's
buffer if one is registered, and notify `MSF_EVENT_DATETIME_UPDATED`. -/
def DecodeFrame (s : DecoderState) : DecodeResult :=
  match ValidateBCD s.A_bits s.B_bits with
  | some _ => { ok := false, state := s, calls := [], delivered := [] }
  | none =>
      let ldt : sMSFDateTime :=
        { Year := ExtractBCD s.A_bits 17 24
          Month := ExtractBCD s.A_bits 25 29
          Day := ExtractBCD s.A_bits 30 35
          DOW := ExtractBCD s.A_bits 36 38
          Hour := ExtractBCD s.A_bits 39 44
          Minute := ExtractBCD s.A_bits 45 51
          DST := ExtractBCD s.B_bits 58 58
          bHasValidTime := true
          bDateTimeUpdated := true }
      let s1 := { s with LocalDateTime := ldt }
      let s2 :=
        if s1.pClientDateTime.isSome && ldt.bHasValidTime then
          { s1 with pClientDateTime := some ldt }
        else s1
      { ok := true, state := s2,
        calls := [MSF_EVENT_DATETIME_UPDATED],
        delivered := ClientEventNotify s2 MSF_EVENT_DATETIME_UPDATED }

/-- Result of one carrier-edge event: new state, the `ClientEventNotify`
requests made, the events delivered to the client, and the bit indices
passed to `setBit` (in call order). -/
structure StepResult where
  state : DecoderState
  calls : List eMSFEventType
  delivered : List eMSFEventType
  bitWrites : List Nat

/-- A step outcome with no side effects (a `break` with no writes). -/
def idStep (s : DecoderState) : StepResult :=
  { state := s, calls := [], delivered := [], bitWrites := [] }

/-- A step outcome that only sets `bResyncNeeded`. -/
def resyncStep (s : DecoderState) : StepResult :=
  { state := { s with bResyncNeeded := true }, calls := [], delivered := [], bitWrites := [] }

/-- The `CARRIER_OFF` arm of `HandleCarrierEvent` after classifying the
just-ended ON span as `w` (the `switch (eLastOnWidth)` dispatch, written
as an equality chain over the enum). -/
def offDispatch (w : eWidth) (event_time : Nat) (s0 : DecoderState) : StepResult :=
  let s1 := { s0 with T_LastOffStart := event_time, eLastOnWidth := w }
  let s := if s1.bSyncedFlag = false then { s1 with T_CellStart := event_time } else s1
  if w = .eWidth_500 then
    if s.bHalfSync then
      let sy := { s with bSyncedFlag := true, T_CellStart := event_time }
      if sy.nBitNum = 60 then
        let d := DecodeFrame sy
        { state := { d.state with bResyncNeeded := !d.ok, nBitNum := 1 },
          calls := MSF_EVENT_SYNC :: d.calls,
          delivered := ClientEventNotify sy MSF_EVENT_SYNC ++ d.delivered,
          bitWrites := [] }
      else
        { state := { sy with nBitNum := 1 },
          calls := [MSF_EVENT_SYNC],
          delivered := ClientEventNotify sy MSF_EVENT_SYNC,
          bitWrites := [] }
    else resyncStep s
  else if w = .eWidth_900 then
    if !s.bSyncedFlag then idStep s
    else
      { state := { s with A_bits := setBit s.A_bits s.nBitNum false,
                          B_bits := setBit s.B_bits s.nBitNum false,
                          nBitNum := s.nBitNum + 1, T_CellStart := event_time },
        calls := [], delivered := [], bitWrites := [s.nBitNum, s.nBitNum] }
  else if w = .eWidth_800 then
    if !s.bSyncedFlag then idStep s
    else
      { state := { s with A_bits := setBit s.A_bits s.nBitNum true,
                          B_bits := setBit s.B_bits s.nBitNum false,
                          nBitNum := s.nBitNum + 1, T_CellStart := event_time },
        calls := [], delivered := [], bitWrites := [s.nBitNum, s.nBitNum] }
  else if w = .eWidth_700 then
    if !s.bSyncedFlag then idStep s
    else
      { state := { s with B_bits := setBit s.B_bits s.nBitNum true,
                          nBitNum := s.nBitNum + 1, T_CellStart := event_time },
        calls := [], delivered := [], bitWrites := [s.nBitNum] }
  else if w = .eWidth_100 then
    if !s.bSyncedFlag then idStep s
    else if GetWidth (sub32 event_time s.T_CellStart) = .eWidth_200 then
      { state := { s with A_bits := setBit s.A_bits s.nBitNum false,
                          B_bits := setBit s.B_bits s.nBitNum true,
                          nBitNum := s.nBitNum + 1 },
        calls := [], delivered := [], bitWrites := [s.nBitNum, s.nBitNum] }
    else resyncStep s
  else resyncStep s

/-- The `CARRIER_OFF` arm: classify the just-ended ON span and dispatch. -/
def handleOFF (event_time : Nat) (s0 : DecoderState) : StepResult :=
  offDispatch (GetWidth (sub32 event_time s0.T_LastOnStart)) event_time s0

/-- The `CARRIER_ON` arm after classifying the just-ended OFF span as `w`
and the offset from the current cell start as `off` (the
`switch (GetWidth(event_time - T_CellStart))` dispatch). -/
def onDispatch (w off : eWidth) (event_time : Nat) (s0 : DecoderState) : StepResult :=
  let s := { s0 with T_LastOnStart := event_time, eLastOffWidth := w }
  if off = .eWidth_500 then
    if w = .eWidth_500 then
      { state := { s with bHalfSync := true }, calls := [], delivered := [], bitWrites := [] }
    else resyncStep s
  else if off = .eWidth_100 then
    if !s.bSyncedFlag then idStep s
    else
      { state := { s with A_bits := setBit s.A_bits s.nBitNum false },
        calls := [], delivered := [], bitWrites := [s.nBitNum] }
  else if off = .eWidth_200 then
    if !s.bSyncedFlag then idStep s
    else
      { state := { s with A_bits := setBit s.A_bits s.nBitNum true,
                          B_bits := setBit s.B_bits s.nBitNum false },
        calls := [], delivered := [], bitWrites := [s.nBitNum, s.nBitNum] }
  else if off = .eWidth_300 then
    if !s.bSyncedFlag then idStep s
    else
      let sb := { s with B_bits := setBit s.B_bits s.nBitNum false }
      if w = .eWidth_100 then
        { state := { sb with A_bits := setBit sb.A_bits sb.nBitNum false },
          calls := [], delivered := [], bitWrites := [s.nBitNum, s.nBitNum] }
      else if w = .eWidth_300 then
        { state := { sb with A_bits := setBit sb.A_bits sb.nBitNum true },
          calls := [], delivered := [], bitWrites := [s.nBitNum, s.nBitNum] }
      else
        { state := { sb with bResyncNeeded := true },
          calls := [], delivered := [], bitWrites := [s.nBitNum] }
  else resyncStep s

/-- The `CARRIER_ON` arm: classify the just-ended OFF span and the offset
from the current cell start, and dispatch. -/
def handleON (event_time : Nat) (s0 : DecoderState) : StepResult :=
  onDispatch (GetWidth (sub32 event_time s0.T_LastOffStart))
    (GetWidth (sub32 event_time s0.T_CellStart)) event_time s0

/-- The body of `HandleCarrierEvent` before the final resync check:
dispatch on the GPIO level of the edge. -/
def HandleCarrierEventCore (event_level event_time : Nat) (s : DecoderState) : StepResult :=
  if event_level = CARRIER_OFF then handleOFF event_time s
  else if event_level = CARRIER_ON then handleON event_time s
  else resyncStep s

/-- `HandleCarrierEvent`: process one carrier edge; if any branch requested
a resync, notify `MSF_EVENT_SYNC_LOST` and clear all sync state. -/
def HandleCarrierEvent (event_level event_time : Nat) (s : DecoderState) : StepResult :=
  let r := HandleCarrierEventCore event_level event_time s
  if r.state.bResyncNeeded then
    { state := { r.state with nBitNum := 1, bHalfSync := false,
                              bSyncedFlag := false, bResyncNeeded := false },
      calls := r.calls ++ [MSF_EVENT_SYNC_LOST],
      delivered := r.delivered ++ ClientEventNotify r.state MSF_EVENT_SYNC_LOST,
      bitWrites := r.bitWrites }
  else r

/-- The decoder state at program start: the static initialisers of the
file-level statics and of the function-local statics of
`HandleCarrierEvent` (uninitialised statics are zero-initialised). -/
def initState : DecoderState :=
  { bSyncedFlag := false
    A_bits := fun _ => 0
    B_bits := fun _ => 0
    LocalDateTime := zeroDateTime
    pClientDateTime := none
    pfClientEventCallback := false
    ui32ClientEventMask := 0
    T_LastOnStart := 0
    T_LastOffStart := 0
    eLastOnWidth := .eWidth_INVALID
    eLastOffWidth := .eWidth_INVALID
    T_CellStart := 0
    nBitNum := 1
    bHalfSync := false
    bResyncNeeded := true }

/-- `MSF_InitDecoder`: if the client supplied a valid data pointer
(`pdata = true`), register it and zero the client's structure. -/
def MSF_InitDecoder (s : DecoderState) (pdata : Bool) : DecoderState :=
  if pdata then { s with pClientDateTime := some zeroDateTime } else s

/-- `MSF_EnableEventNotifications`: register/replace the client callback
and its event mask. -/
def MSF_EnableEventNotifications (s : DecoderState) (pfunc : Bool) (mask : Nat) :
    DecoderState :=
  { s with pfClientEventCallback := pfunc, ui32ClientEventMask := mask }

/-- `MSF_GetSyncState`. -/
def MSF_GetSyncState (s : DecoderState) : Bool := s.bSyncedFlag

/-- Run a list of carrier-edge events (level, timestamp) through the
decoder. -/
def runEdges (s : DecoderState) : List (Nat × Nat) → DecoderState
  | [] => s
  | (lvl, t) :: rest => runEdges (HandleCarrierEvent lvl t s).state rest

/-- A decoder state is reachable if it arises from program start, an
`MSF_InitDecoder` / `MSF_EnableEventNotifications` configuration, and some
sequence of carrier-edge events. -/
def Reachable (s : DecoderState) : Prop :=
  ∃ (pdata pfunc : Bool) (mask : Nat) (tr : List (Nat × Nat)),
    runEdges (MSF_EnableEventNotifications (MSF_InitDecoder initState pdata) pfunc mask) tr = s

/-- The table of nominal pulse widths and their classification symbols,
used to state the classification property. -/
def nominalWidths : List (Nat × eWidth) :=
  [(100, .eWidth_100), (200, .eWidth_200), (300, .eWidth_300), (500, .eWidth_500),
   (700, .eWidth_700), (800, .eWidth_800), (900, .eWidth_900)]

/-- Two-nibble BCD encoding of a decimal value 0..99: units nibble in bits
0..3, tens nibble in bits 4..7 (so bit `d` carries weight `BCDweights[d]`). -/
def encodeBCD (v : Nat) : Nat := 16 * (v / 10) + v % 10

/-- A decoder start configuration: program start, `MSF_InitDecoder(NULL)`,
no event callback registered. -/
def startState : DecoderState :=
  MSF_EnableEventNotifications (MSF_InitDecoder initState false) false 0

/-- A decoder start configuration with a callback registered for
`MSF_EVENT_SYNC_LOST` (mask value 2) and no client buffer. -/
def lostListenerState : DecoderState :=
  MSF_EnableEventNotifications (MSF_InitDecoder initState false) true 2

/-- The two edges of one signal-accepted bit cell used in the long traces:
carrier ON 100 ms after cell start (classified `eWidth_100`, writes an A
bit), carrier OFF 900 ms later (classified `eWidth_900`, writes both bits
and advances the cursor). -/
def cellPair (T : Nat) : List (Nat × Nat) := [(CARRIER_ON, T + 100), (CARRIER_OFF, T + 1000)]

/-- `k` consecutive such bit cells starting at time `T`, one second apart. -/
def cellRun : Nat → Nat → List (Nat × Nat)
  | 0, _ => []
  | k + 1, T => cellPair T ++ cellRun k (T + 1000)

/-- Edges taking the decoder from start to SYNCED: a first OFF edge (which
consumes the initial resync), then a 500 ms OFF span and a 500 ms ON span
(the SYNC preamble); cell 1 starts at time 2000. -/
def syncLead : List (Nat × Nat) := [(CARRIER_OFF, 1000), (CARRIER_ON, 1500), (CARRIER_OFF, 2000)]

/-- A state ready to receive a `cellPair` cell starting at time `T`:
SYNCED, cell start and last OFF start at `T`, no pending resync. -/
def CellReady (s : DecoderState) (T : Nat) : Prop :=
  s.bSyncedFlag = true ∧ s.T_CellStart = T ∧ s.T_LastOffStart = T ∧ s.bResyncNeeded = false

/-- The start state with HALF_SYNC active, as left by a 500 ms OFF span
followed by a carrier-ON edge 500 ms after cell start. -/
def halfSyncState : DecoderState := { initState with bHalfSync := true }

/-- The reachable state after a clean SYNC acquisition followed by 59
accepted bit cells (a complete frame, cursor sitting at 60). -/
def frameEndState : DecoderState := runEdges startState (syncLead ++ cellRun 59 2000)

/-- The reachable state after a clean SYNC acquisition followed by 63
accepted bit cells (no intervening SYNC preamble). -/
def overrunState : DecoderState := runEdges startState (syncLead ++ cellRun 63 2000)

/-- An A array passing all fixed-bit checks: bits 53..58 set, all data bits
zero (bit `n` lives in byte `n >>> 3` at position `n &&& 7`). -/
def goodA : BitArr := fun i => if i = 6 then 224 else if i = 7 then 7 else 0

/-- A matching B array: parity bits 54..57 all set, so each parity group
(with zero data bits) has exactly one set bit, which is odd. -/
def goodB : BitArr := fun i => if i = 6 then 192 else if i = 7 then 3 else 0

/-- A decoder state holding the valid frame `goodA` / `goodB`, with a
client buffer registered. -/
def goodState : DecoderState :=
  { initState with A_bits := goodA, B_bits := goodB, pClientDateTime := some zeroDateTime,
                   pfClientEventCallback := true, ui32ClientEventMask := 7 }

/-- An all-ones bit array; its bit 52 is set, so `ValidateBCD` rejects it
at the very first check. -/
def badA : BitArr := fun _ => 255

/-- A decoder state holding the invalid frame `badA` / `badA`, with a
client buffer registered and a callback subscribed to everything. -/
def badState : DecoderState :=
  { initState with A_bits := badA, B_bits := badA, pClientDateTime := some zeroDateTime,
                   pfClientEventCallback := true, ui32ClientEventMask := 7 }

/-- A bit array whose bits 17..24 hold the two-nibble BCD encoding of the
decimal value 24 (bit 22 = tens-2 weight 20, bit 19 = units-4 weight 4,
both in byte 2: mask 64 + 8 = 72). -/
def yearArr24 : BitArr := fun i => if i = 2 then 72 else 0

end MSF60

namespace MSF60

open eMSFEventType

/-- An interval measured forward in `uint32_t` arithmetic is exact when it
fits in 32 bits. -/
lemma sub32_add (b d : Nat) (hd : d < 2 ^ 32) : sub32 (b + d) b = d := by
  unfold sub32
  omega

/-- `DecodeFrame` preserves the bit cursor, the callback registration and
the event mask. -/
lemma decodeFrame_preserves (s : DecoderState) :
    (DecodeFrame s).state.nBitNum = s.nBitNum ∧
    (DecodeFrame s).state.pfClientEventCallback = s.pfClientEventCallback ∧
    (DecodeFrame s).state.ui32ClientEventMask = s.ui32ClientEventMask := by
  unfold DecodeFrame
  split
  · exact ⟨rfl, rfl, rfl⟩
  · dsimp only
    split <;> exact ⟨rfl, rfl, rfl⟩

/-- Membership in a `ClientEventNotify` delivery. -/
lemma mem_clientEventNotify (s : DecoderState) (ev ev' : eMSFEventType) :
    ev' ∈ ClientEventNotify s ev ↔
      (ev' = ev ∧ s.pfClientEventCallback = true ∧ s.ui32ClientEventMask &&& ev.val ≠ 0) := by
  unfold ClientEventNotify
  split <;> simp_all

/-- `DecodeFrame` never delivers a SYNC_LOST event. -/
lemma decodeFrame_no_sync_lost (s : DecoderState) :
    MSF_EVENT_SYNC_LOST ∉ (DecodeFrame s).delivered := by
  unfold DecodeFrame
  split
  · simp
  · dsimp only
    simp [mem_clientEventNotify]

end MSF60

namespace MSF60

open eMSFEventType

set_option maxRecDepth 4000

/-- The CARRIER_OFF dispatch resets, keeps, or advances the bit cursor. -/
lemma offDispatch_nBitNum (w : eWidth) (t : Nat) (s : DecoderState) :
    (offDispatch w t s).state.nBitNum = 1 ∨ (offDispatch w t s).state.nBitNum = s.nBitNum ∨
    (offDispatch w t s).state.nBitNum = s.nBitNum + 1 := by
  cases w <;> by_cases hsf : s.bSyncedFlag = false <;>
    simp [offDispatch, idStep, resyncStep, hsf]
  all_goals try (split <;> (try split) <;> simp)
  all_goals tauto

/-- The CARRIER_ON dispatch resets, keeps, or advances the bit cursor. -/
lemma onDispatch_nBitNum (w off : eWidth) (t : Nat) (s : DecoderState) :
    (onDispatch w off t s).state.nBitNum = 1 ∨ (onDispatch w off t s).state.nBitNum = s.nBitNum ∨
    (onDispatch w off t s).state.nBitNum = s.nBitNum + 1 := by
  cases off <;> cases w <;> by_cases hsf : s.bSyncedFlag = false <;>
    simp [onDispatch, idStep, resyncStep, hsf]

/-- The CARRIER_OFF dispatch preserves callback registration and mask. -/
lemma offDispatch_pf_mask (w : eWidth) (t : Nat) (s : DecoderState) :
    (offDispatch w t s).state.pfClientEventCallback = s.pfClientEventCallback ∧
    (offDispatch w t s).state.ui32ClientEventMask = s.ui32ClientEventMask := by
  cases w <;> by_cases hsf : s.bSyncedFlag = false <;>
    simp [offDispatch, idStep, resyncStep, hsf, (decodeFrame_preserves _).2.1,
          (decodeFrame_preserves _).2.2]
  all_goals try (split <;> (try split) <;>
    simp [(decodeFrame_preserves _).2.1, (decodeFrame_preserves _).2.2])

/-- The CARRIER_ON dispatch preserves callback registration and mask. -/
lemma onDispatch_pf_mask (w off : eWidth) (t : Nat) (s : DecoderState) :
    (onDispatch w off t s).state.pfClientEventCallback = s.pfClientEventCallback ∧
    (onDispatch w off t s).state.ui32ClientEventMask = s.ui32ClientEventMask := by
  cases off <;> cases w <;> by_cases hsf : s.bSyncedFlag = false <;>
    simp [onDispatch, idStep, resyncStep, hsf]

/-- The CARRIER_OFF dispatch never delivers a SYNC_LOST event itself. -/
lemma offDispatch_no_sync_lost (w : eWidth) (t : Nat) (s : DecoderState) :
    MSF_EVENT_SYNC_LOST ∉ (offDispatch w t s).delivered := by
  cases w <;> by_cases hsf : s.bSyncedFlag = false <;>
    simp [offDispatch, idStep, resyncStep, hsf, mem_clientEventNotify,
          decodeFrame_no_sync_lost]
  all_goals try (split <;> (try split) <;>
    simp [mem_clientEventNotify, decodeFrame_no_sync_lost])

/-- The CARRIER_ON dispatch never delivers any event. -/
lemma onDispatch_delivered (w off : eWidth) (t : Nat) (s : DecoderState) :
    (onDispatch w off t s).delivered = [] := by
  cases off <;> cases w <;> by_cases hsf : s.bSyncedFlag = false <;>
    simp [onDispatch, idStep, resyncStep, hsf]

/-- The CARRIER_ON dispatch never requests any event. -/
lemma onDispatch_calls (w off : eWidth) (t : Nat) (s : DecoderState) :
    (onDispatch w off t s).calls = [] := by
  cases off <;> cases w <;> by_cases hsf : s.bSyncedFlag = false <;>
    simp [onDispatch, idStep, resyncStep, hsf]

/-- Without an active half-sync, the CARRIER_OFF dispatch requests no
events and can only raise the resync flag. -/
lemma offDispatch_quiet (w : eWidth) (t : Nat) (s : DecoderState) (hhs : s.bHalfSync = false) :
    (offDispatch w t s).calls = [] ∧ (offDispatch w t s).delivered = [] ∧
    ((offDispatch w t s).state.bResyncNeeded = s.bResyncNeeded ∨
      (offDispatch w t s).state.bResyncNeeded = true) := by
  cases w <;> by_cases hsf : s.bSyncedFlag = false <;>
    simp [offDispatch, idStep, resyncStep, hhs, hsf]
  all_goals try (split <;> simp)
  all_goals tauto

/-- The CARRIER_ON dispatch can only keep or raise the resync flag. -/
lemma onDispatch_resync (w off : eWidth) (t : Nat) (s : DecoderState) :
    (onDispatch w off t s).state.bResyncNeeded = s.bResyncNeeded ∨
    (onDispatch w off t s).state.bResyncNeeded = true := by
  cases off <;> cases w <;> by_cases hsf : s.bSyncedFlag = false <;>
    simp [onDispatch, idStep, resyncStep, hsf]
  all_goals tauto

end MSF60

namespace MSF60

open eMSFEventType

set_option maxRecDepth 4000

/-- The edge-level dispatch at a CARRIER_OFF edge. -/
lemma core_off (t : Nat) (s : DecoderState) :
    HandleCarrierEventCore CARRIER_OFF t s = handleOFF t s := by
  unfold HandleCarrierEventCore
  rw [if_pos rfl]

/-- The edge-level dispatch at a CARRIER_ON edge. -/
lemma core_on (t : Nat) (s : DecoderState) :
    HandleCarrierEventCore CARRIER_ON t s = handleON t s := by
  unfold HandleCarrierEventCore
  rw [if_neg (by decide), if_pos rfl]

/-- The edge-level dispatch at an unknown level only requests a resync. -/
lemma core_other (lvl t : Nat) (s : DecoderState) (h1 : lvl ≠ CARRIER_OFF)
    (h2 : lvl ≠ CARRIER_ON) : HandleCarrierEventCore lvl t s = resyncStep s := by
  unfold HandleCarrierEventCore
  rw [if_neg h1, if_neg h2]

/-- The pre-resync-check body resets, keeps, or advances the bit cursor. -/
lemma core_nBitNum (lvl t : Nat) (s : DecoderState) :
    (HandleCarrierEventCore lvl t s).state.nBitNum = 1 ∨
    (HandleCarrierEventCore lvl t s).state.nBitNum = s.nBitNum ∨
    (HandleCarrierEventCore lvl t s).state.nBitNum = s.nBitNum + 1 := by
  by_cases h1 : lvl = CARRIER_OFF
  · rw [h1, core_off]
    have he : handleOFF t s = offDispatch (GetWidth (sub32 t s.T_LastOnStart)) t s := rfl
    rw [he]
    exact offDispatch_nBitNum _ _ _
  · by_cases h2 : lvl = CARRIER_ON
    · rw [h2, core_on]
      have he : handleON t s = onDispatch (GetWidth (sub32 t s.T_LastOffStart))
          (GetWidth (sub32 t s.T_CellStart)) t s := rfl
      rw [he]
      exact onDispatch_nBitNum _ _ _ _
    · rw [core_other lvl t s h1 h2]
      simp [resyncStep]

/-- The pre-resync-check body preserves callback registration and mask. -/
lemma core_pf_mask (lvl t : Nat) (s : DecoderState) :
    (HandleCarrierEventCore lvl t s).state.pfClientEventCallback = s.pfClientEventCallback ∧
    (HandleCarrierEventCore lvl t s).state.ui32ClientEventMask = s.ui32ClientEventMask := by
  by_cases h1 : lvl = CARRIER_OFF
  · rw [h1, core_off]
    have he : handleOFF t s = offDispatch (GetWidth (sub32 t s.T_LastOnStart)) t s := rfl
    rw [he]
    exact offDispatch_pf_mask _ _ _
  · by_cases h2 : lvl = CARRIER_ON
    · rw [h2, core_on]
      have he : handleON t s = onDispatch (GetWidth (sub32 t s.T_LastOffStart))
          (GetWidth (sub32 t s.T_CellStart)) t s := rfl
      rw [he]
      exact onDispatch_pf_mask _ _ _ _
    · rw [core_other lvl t s h1 h2]
      simp [resyncStep]

/-- The pre-resync-check body never delivers a SYNC_LOST event itself. -/
lemma core_no_sync_lost (lvl t : Nat) (s : DecoderState) :
    MSF_EVENT_SYNC_LOST ∉ (HandleCarrierEventCore lvl t s).delivered := by
  by_cases h1 : lvl = CARRIER_OFF
  · rw [h1, core_off]
    have he : handleOFF t s = offDispatch (GetWidth (sub32 t s.T_LastOnStart)) t s := rfl
    rw [he]
    exact offDispatch_no_sync_lost _ _ _
  · by_cases h2 : lvl = CARRIER_ON
    · rw [h2, core_on]
      have he : handleON t s = onDispatch (GetWidth (sub32 t s.T_LastOffStart))
          (GetWidth (sub32 t s.T_CellStart)) t s := rfl
      rw [he]
      simp [onDispatch_delivered]
    · rw [core_other lvl t s h1 h2]
      simp [resyncStep]

/-- Without an active half-sync, the pre-resync-check body requests no
events and can only raise the resync flag. -/
lemma core_quiet (lvl t : Nat) (s : DecoderState) (hhs : s.bHalfSync = false) :
    (HandleCarrierEventCore lvl t s).calls = [] ∧
    (HandleCarrierEventCore lvl t s).delivered = [] ∧
    ((HandleCarrierEventCore lvl t s).state.bResyncNeeded = s.bResyncNeeded ∨
      (HandleCarrierEventCore lvl t s).state.bResyncNeeded = true) := by
  by_cases h1 : lvl = CARRIER_OFF
  · rw [h1, core_off]
    have he : handleOFF t s = offDispatch (GetWidth (sub32 t s.T_LastOnStart)) t s := rfl
    rw [he]
    exact offDispatch_quiet _ _ _ hhs
  · by_cases h2 : lvl = CARRIER_ON
    · rw [h2, core_on]
      have he : handleON t s = onDispatch (GetWidth (sub32 t s.T_LastOffStart))
          (GetWidth (sub32 t s.T_CellStart)) t s := rfl
      rw [he]
      exact ⟨onDispatch_calls _ _ _ _, onDispatch_delivered _ _ _ _,
             onDispatch_resync _ _ _ _⟩
    · rw [core_other lvl t s h1 h2]
      simp [resyncStep]

/-- Whenever the body of the edge handler ends with the resync flag
raised, the final resync check discards the frame, clears all sync state,
requests SYNC_LOST and delivers it exactly to a subscribed listener. -/
lemma step_resync (lvl t : Nat) (s : DecoderState)
    (h : (HandleCarrierEventCore lvl t s).state.bResyncNeeded = true) :
    (HandleCarrierEvent lvl t s).state.nBitNum = 1 ∧
    (HandleCarrierEvent lvl t s).state.bHalfSync = false ∧
    (HandleCarrierEvent lvl t s).state.bSyncedFlag = false ∧
    (HandleCarrierEvent lvl t s).state.bResyncNeeded = false ∧
    MSF_EVENT_SYNC_LOST ∈ (HandleCarrierEvent lvl t s).calls ∧
    (MSF_EVENT_SYNC_LOST ∈ (HandleCarrierEvent lvl t s).delivered ↔
      (s.pfClientEventCallback = true ∧ s.ui32ClientEventMask &&& 2 ≠ 0)) := by
  simp [HandleCarrierEvent, h, mem_clientEventNotify, core_no_sync_lost lvl t s,
        (core_pf_mask lvl t s).1, (core_pf_mask lvl t s).2, eMSFEventType.val]

/-- A single edge cannot decrease the bit cursor below 1. -/
lemma step_nBitNum_pos (lvl t : Nat) (s : DecoderState) (h : 1 ≤ s.nBitNum) :
    1 ≤ (HandleCarrierEvent lvl t s).state.nBitNum := by
  have hc := core_nBitNum lvl t s
  by_cases hr : (HandleCarrierEventCore lvl t s).state.bResyncNeeded = true
  · simp [HandleCarrierEvent, hr]
  · simp only [HandleCarrierEvent]
    rw [if_neg (by simpa using hr)]
    rcases hc with h1 | h1 | h1 <;> omega

/-- Edge sequences cannot decrease the bit cursor below 1. -/
lemma runEdges_nBitNum_pos (tr : List (Nat × Nat)) :
    ∀ s : DecoderState, 1 ≤ s.nBitNum → 1 ≤ (runEdges s tr).nBitNum := by
  induction tr with
  | nil => intro s h; exact h
  | cons e rest ih =>
      intro s h
      cases e with
      | mk lvl t => exact ih _ (step_nBitNum_pos lvl t s h)

/-- A 500 ms ON span arriving while HALF_SYNC is active resets the cursor
to 1 (the full-SYNC acquisition path, whether or not a completed frame is
decoded and whether or not the decode triggers a resync). -/
lemma offDispatch_sync_reset (t : Nat) (s : DecoderState) (hhs : s.bHalfSync = true) :
    (offDispatch .eWidth_500 t s).state.nBitNum = 1 := by
  by_cases hsf : s.bSyncedFlag = false <;>
    simp [offDispatch, hhs, hsf]
  all_goals try (split <;> simp)

end MSF60

namespace MSF60

open eMSFEventType

set_option maxRecDepth 4000

lemma gw100 : GetWidth 100 = .eWidth_100 := by decide

lemma gw900 : GetWidth 900 = .eWidth_900 := by decide

/-- A CARRIER_ON edge 100 ms into a cell while SYNCED writes A=0 at the
cursor without advancing it. -/
lemma onDispatch_cell (w : eWidth) (t : Nat) (s : DecoderState) (hsf : s.bSyncedFlag = true) :
    onDispatch w .eWidth_100 t s =
      { state := { s with T_LastOnStart := t, eLastOffWidth := w,
                          A_bits := setBit s.A_bits s.nBitNum false },
        calls := [], delivered := [], bitWrites := [s.nBitNum] } := by
  simp [onDispatch, hsf]

/-- A 900 ms ON span ending a cell while SYNCED writes A=0, B=0 at the
cursor, advances it, and starts a new cell. -/
lemma offDispatch_cell (t : Nat) (s : DecoderState) (hsf : s.bSyncedFlag = true) :
    offDispatch .eWidth_900 t s =
      { state := { s with T_LastOffStart := t, eLastOnWidth := .eWidth_900,
                          A_bits := setBit s.A_bits s.nBitNum false,
                          B_bits := setBit s.B_bits s.nBitNum false,
                          nBitNum := s.nBitNum + 1, T_CellStart := t },
        calls := [], delivered := [], bitWrites := [s.nBitNum, s.nBitNum] } := by
  simp [offDispatch, hsf]

/-- Effect of the first edge of a `cellPair` bit cell. -/
lemma cell_on_step (s : DecoderState) (T : Nat) (h : CellReady s T) :
    HandleCarrierEvent CARRIER_ON (T + 100) s =
      { state := { s with T_LastOnStart := T + 100, eLastOffWidth := .eWidth_100,
                          A_bits := setBit s.A_bits s.nBitNum false },
        calls := [], delivered := [], bitWrites := [s.nBitNum] } := by
  obtain ⟨hsf, hc, ho, hr⟩ := h
  have hcore : HandleCarrierEventCore CARRIER_ON (T + 100) s =
      { state := { s with T_LastOnStart := T + 100, eLastOffWidth := .eWidth_100,
                          A_bits := setBit s.A_bits s.nBitNum false },
        calls := [], delivered := [], bitWrites := [s.nBitNum] } := by
    rw [core_on]
    have he : handleON (T + 100) s =
        onDispatch (GetWidth (sub32 (T + 100) s.T_LastOffStart))
          (GetWidth (sub32 (T + 100) s.T_CellStart)) (T + 100) s := rfl
    have e1 : GetWidth (sub32 (T + 100) s.T_LastOffStart) = .eWidth_100 := by
      rw [ho, sub32_add T 100 (by norm_num)]
      exact gw100
    have e2 : GetWidth (sub32 (T + 100) s.T_CellStart) = .eWidth_100 := by
      rw [hc, sub32_add T 100 (by norm_num)]
      exact gw100
    rw [he, e1, e2]
    exact onDispatch_cell .eWidth_100 (T + 100) s hsf
  simp [HandleCarrierEvent, hcore, hr]

/-- Effect of the second edge of a `cellPair` bit cell. -/
lemma cell_off_step (T : Nat) (s : DecoderState) (hsf : s.bSyncedFlag = true)
    (hon : s.T_LastOnStart = T + 100) (hr : s.bResyncNeeded = false) :
    HandleCarrierEvent CARRIER_OFF (T + 1000) s =
      { state := { s with T_LastOffStart := T + 1000, eLastOnWidth := .eWidth_900,
                          A_bits := setBit s.A_bits s.nBitNum false,
                          B_bits := setBit s.B_bits s.nBitNum false,
                          nBitNum := s.nBitNum + 1, T_CellStart := T + 1000 },
        calls := [], delivered := [], bitWrites := [s.nBitNum, s.nBitNum] } := by
  have hcore : HandleCarrierEventCore CARRIER_OFF (T + 1000) s =
      { state := { s with T_LastOffStart := T + 1000, eLastOnWidth := .eWidth_900,
                          A_bits := setBit s.A_bits s.nBitNum false,
                          B_bits := setBit s.B_bits s.nBitNum false,
                          nBitNum := s.nBitNum + 1, T_CellStart := T + 1000 },
        calls := [], delivered := [], bitWrites := [s.nBitNum, s.nBitNum] } := by
    rw [core_off]
    have he : handleOFF (T + 1000) s =
        offDispatch (GetWidth (sub32 (T + 1000) s.T_LastOnStart)) (T + 1000) s := rfl
    have e9 : GetWidth (sub32 (T + 1000) s.T_LastOnStart) = .eWidth_900 := by
      rw [hon]
      have ha : T + 1000 = (T + 100) + 900 := by omega
      rw [ha, sub32_add _ 900 (by norm_num)]
      exact gw900
    rw [he, e9]
    exact offDispatch_cell (T + 1000) s hsf
  simp [HandleCarrierEvent, hcore, hr]

lemma runEdges_nil (s : DecoderState) : runEdges s [] = s := by
  simp only [runEdges]

lemma runEdges_cons (lvl t : Nat) (s : DecoderState) (rest : List (Nat × Nat)) :
    runEdges s ((lvl, t) :: rest) = runEdges (HandleCarrierEvent lvl t s).state rest := by
  simp only [runEdges]

/-- Running one `cellPair` keeps the decoder cell-ready one second later
and advances the cursor by exactly one. -/
lemma cellPair_ready (s : DecoderState) (T : Nat) (h : CellReady s T) :
    CellReady (runEdges s (cellPair T)) (T + 1000) ∧
    (runEdges s (cellPair T)).nBitNum = s.nBitNum + 1 := by
  obtain ⟨hsf, hc, ho, hr⟩ := h
  have hlist : cellPair T = (CARRIER_ON, T + 100) :: [(CARRIER_OFF, T + 1000)] := rfl
  rw [hlist, runEdges_cons, cell_on_step s T ⟨hsf, hc, ho, hr⟩]
  rw [runEdges_cons]
  rw [cell_off_step T _ (by simpa using hsf) (by simp) (by simpa using hr)]
  rw [runEdges_nil]
  exact ⟨⟨by simpa using hsf, by simp, by simp, by simpa using hr⟩, by simp⟩

lemma runEdges_append (s : DecoderState) (t1 t2 : List (Nat × Nat)) :
    runEdges s (t1 ++ t2) = runEdges (runEdges s t1) t2 := by
  induction t1 generalizing s with
  | nil => rw [List.nil_append, runEdges_nil]
  | cons e rest ih =>
      cases e with
      | mk lvl t =>
          rw [List.cons_append, runEdges_cons, runEdges_cons]
          exact ih (HandleCarrierEvent lvl t s).state

/-- Running `k` accepted cells keeps the decoder cell-ready and advances
the cursor by exactly `k`, with no bound ever enforced on it. -/
lemma cellRun_ready (k : Nat) :
    ∀ (s : DecoderState) (T : Nat), CellReady s T →
      CellReady (runEdges s (cellRun k T)) (T + 1000 * k) ∧
      (runEdges s (cellRun k T)).nBitNum = s.nBitNum + k := by
  induction k with
  | zero =>
      intro s T h
      have h0 : cellRun 0 T = ([] : List (Nat × Nat)) := rfl
      rw [h0, runEdges_nil]
      simpa using h
  | succ n ih =>
      intro s T h
      have hsplit : cellRun (n + 1) T = cellPair T ++ cellRun n (T + 1000) := rfl
      rw [hsplit, runEdges_append]
      obtain ⟨h1, h2⟩ := cellPair_ready s T h
      obtain ⟨h3, h4⟩ := ih _ _ h1
      constructor
      · have harith : T + 1000 + 1000 * n = T + 1000 * (n + 1) := by ring
        rwa [harith] at h3
      · rw [h4, h2]
        omega

/-- The three edges of `syncLead` leave the decoder SYNCED and cell-ready
at time 2000 with the cursor at 1. -/
lemma syncLead_ready :
    CellReady (runEdges startState syncLead) 2000 ∧
    (runEdges startState syncLead).nBitNum = 1 := by
  refine ⟨⟨?_, ?_, ?_, ?_⟩, ?_⟩ <;> decide

end MSF60

namespace MSF60

lemma abs32_iff (w n : Nat) (hw : w < 2 ^ 32) (hn1 : 100 ≤ n) (hn2 : n ≤ 900) :
    (abs32 (sub32 w n) < PULSE_MARGIN) ↔ (n - 30 < w ∧ w < n + 30) := by
  unfold abs32 sub32 PULSE_MARGIN
  split <;> omega

set_option maxHeartbeats 3000000 in
/-- C3: for every nominal width and every measured interval on the
`uint32_t` domain, `GetWidth` classifies the interval as that nominal
exactly when it lies strictly within the 30 ms margin; an interval
exactly 30 ms away never classifies as that nominal, and an interval
within no nominal's strict margin classifies as invalid. -/
theorem C3_pulse_classifier (w : Nat) (hw : w < 2 ^ 32) :
    (∀ p ∈ nominalWidths,
        (Nat.dist w p.1 < PULSE_MARGIN → GetWidth w = p.2) ∧
        (Nat.dist w p.1 = PULSE_MARGIN → GetWidth w ≠ p.2)) ∧
    ((∀ p ∈ nominalWidths, ¬ Nat.dist w p.1 < PULSE_MARGIN) →
        GetWidth w = .eWidth_INVALID) := by
  have e1 := abs32_iff w 100 hw (by norm_num) (by norm_num)
  have e2 := abs32_iff w 200 hw (by norm_num) (by norm_num)
  have e3 := abs32_iff w 300 hw (by norm_num) (by norm_num)
  have e5 := abs32_iff w 500 hw (by norm_num) (by norm_num)
  have e7 := abs32_iff w 700 hw (by norm_num) (by norm_num)
  have e8 := abs32_iff w 800 hw (by norm_num) (by norm_num)
  have e9 := abs32_iff w 900 hw (by norm_num) (by norm_num)
  constructor
  · intro p hp
    fin_cases hp <;>
      refine ⟨fun h => ?_, fun h => ?_⟩ <;>
        simp only [Nat.dist, PULSE_MARGIN] at h <;>
        simp only [GetWidth, e1, e2, e3, e5, e7, e8, e9] <;>
        split_ifs <;> first | decide | (exfalso; omega)
  · intro h
    have h1 := h (100, .eWidth_100) (by simp [nominalWidths])
    have h2 := h (200, .eWidth_200) (by simp [nominalWidths])
    have h3 := h (300, .eWidth_300) (by simp [nominalWidths])
    have h5 := h (500, .eWidth_500) (by simp [nominalWidths])
    have h7 := h (700, .eWidth_700) (by simp [nominalWidths])
    have h8 := h (800, .eWidth_800) (by simp [nominalWidths])
    have h9 := h (900, .eWidth_900) (by simp [nominalWidths])
    simp only [Nat.dist, PULSE_MARGIN] at h1 h2 h3 h5 h7 h8 h9
    simp only [GetWidth, e1, e2, e3, e5, e7, e8, e9]
    split_ifs <;> first | decide | (exfalso; omega)


/-- C3 witness: 105 ms classifies as the 100 ms symbol, the boundary
value 130 ms does not. -/
theorem C3_pulse_classifier_witness :
    (105 : Nat) < 2 ^ 32 ∧ GetWidth 105 = .eWidth_100 ∧ GetWidth 130 ≠ .eWidth_100 :=
  ⟨by decide,
   ((C3_pulse_classifier 105 (by decide)).1 (100, .eWidth_100) (by decide)).1 (by decide),
   ((C3_pulse_classifier 130 (by decide)).1 (100, .eWidth_100) (by decide)).2 (by decide)⟩

end MSF60

namespace MSF60

/-- Folding the BCD weights over one digit-test function equals folding
over a pointwise-equal one. -/
lemma foldl_bcd_congr (l : List Nat) (f g : Nat → Bool) (h : ∀ d ∈ l, f d = g d) :
    ∀ acc : Nat,
      l.foldl (fun r d => if f d then r + BCDweights.getD d 0 else r) acc =
      l.foldl (fun r d => if g d then r + BCDweights.getD d 0 else r) acc := by
  induction l with
  | nil => intro acc; rfl
  | cons a t ih =>
      intro acc
      simp only [List.foldl_cons]
      rw [h a (List.mem_cons_self a t)]
      exact ih (fun d hd => h d (List.mem_cons_of_mem a hd)) _

set_option maxRecDepth 2000 in
/-- Summing the `BCD[]` weights of the set bits of the two-nibble BCD
encoding of `v` recovers `v`, for any field width up to 8. -/
lemma bcd_weights_eval : ∀ w, w ≤ 8 → ∀ v, v ≤ 99 → encodeBCD v < 2 ^ w →
    (List.range w).foldl
      (fun r d => if (encodeBCD v).testBit d then r + BCDweights.getD d 0 else r) 0 = v := by
  decide

/-- C5: `ExtractBCD` iterates bit positions from `lsbit` down to `msbit`
weighting set bits by the successive `BCD[]` entries, so on any bit range
of width at most 8 whose bits hold the two-nibble BCD encoding of a
decimal value v (0 to 99), it returns exactly v. -/
theorem C5_extract_bcd (bitarray : BitArr) (msbit lsbit v : Nat)
    (hms : 1 ≤ msbit) (hml : msbit ≤ lsbit) (hw : lsbit + 1 - msbit ≤ 8)
    (hv : v ≤ 99) (hfit : encodeBCD v < 2 ^ (lsbit + 1 - msbit))
    (hbits : ∀ d < lsbit + 1 - msbit, getBit bitarray (lsbit - d) = (encodeBCD v).testBit d) :
    ExtractBCD bitarray msbit lsbit = v := by
  unfold ExtractBCD
  rw [foldl_bcd_congr _ _ _ (fun d hd => hbits d (List.mem_range.mp hd))]
  exact bcd_weights_eval _ hw _ hv hfit

/-- C5 witness: the Year field bits encoding decimal 24. -/
theorem C5_extract_bcd_witness :
    (1 ≤ 17 ∧ 17 ≤ 24 ∧ 24 + 1 - 17 ≤ 8 ∧ 24 ≤ 99 ∧ encodeBCD 24 < 2 ^ (24 + 1 - 17) ∧
      (∀ d < 24 + 1 - 17, getBit yearArr24 (24 - d) = (encodeBCD 24).testBit d)) ∧
    ExtractBCD yearArr24 17 24 = 24 :=
  ⟨⟨by decide, by decide, by decide, by decide, by decide, by decide⟩,
    C5_extract_bcd yearArr24 17 24 24 (by decide) (by decide) (by decide) (by decide)
      (by decide) (by decide)⟩

end MSF60

namespace MSF60

/-- `CheckOddParity` holds exactly when the group (data bits plus external
parity bit) has an odd number of set bits. -/
lemma checkOddParity_iff (A : BitArr) (lo hi : Nat) (p : Bool) :
    CheckOddParity A lo hi p = true ↔
      Odd ((List.range' lo (hi + 1 - lo)).countP (fun b => getBit A b)
            + if p then 1 else 0) := by
  unfold CheckOddParity
  rw [Nat.and_one_is_mod, Nat.odd_iff, beq_iff_eq]

/-- One link of a short-circuiting validation chain succeeds exactly when
its own check passes and the rest of the chain succeeds. -/
lemma ite_some_none_iff (c : Prop) [Decidable c] (e : VErr) (rest : Option VErr) :
    (if c then some e else rest) = none ↔ ¬ c ∧ rest = none := by
  split <;> simp_all

/-- C2: `ValidateBCD` accepts a frame exactly when bit A52 is clear, bits
A53..A58 are all set, bit A59 is clear, and each of the four parity groups
(data bits plus its external B parity bit) has an odd number of set bits;
the definition checks these in this order, returning the first failure. -/
theorem C2_frame_validator (A B : BitArr) :
    ValidateBCD A B = none ↔
      (getBit A 52 = false ∧
       (∀ i, 53 ≤ i → i ≤ 58 → getBit A i = true) ∧
       getBit A 59 = false ∧
       Odd ((List.range' 17 8).countP (fun b => getBit A b)
            + if getBit B 54 then 1 else 0) ∧
       Odd ((List.range' 25 11).countP (fun b => getBit A b)
            + if getBit B 55 then 1 else 0) ∧
       Odd ((List.range' 36 3).countP (fun b => getBit A b)
            + if getBit B 56 then 1 else 0) ∧
       Odd ((List.range' 39 13).countP (fun b => getBit A b)
            + if getBit B 57 then 1 else 0)) := by
  have cp1 : CheckOddParity A 17 24 (getBit B 54) = true ↔
      Odd ((List.range' 17 8).countP (fun b => getBit A b)
            + if getBit B 54 then 1 else 0) := checkOddParity_iff A 17 24 (getBit B 54)
  have cp2 : CheckOddParity A 25 35 (getBit B 55) = true ↔
      Odd ((List.range' 25 11).countP (fun b => getBit A b)
            + if getBit B 55 then 1 else 0) := checkOddParity_iff A 25 35 (getBit B 55)
  have cp3 : CheckOddParity A 36 38 (getBit B 56) = true ↔
      Odd ((List.range' 36 3).countP (fun b => getBit A b)
            + if getBit B 56 then 1 else 0) := checkOddParity_iff A 36 38 (getBit B 56)
  have cp4 : CheckOddParity A 39 51 (getBit B 57) = true ↔
      Odd ((List.range' 39 13).countP (fun b => getBit A b)
            + if getBit B 57 then 1 else 0) := checkOddParity_iff A 39 51 (getBit B 57)
  unfold ValidateBCD
  simp only [ite_some_none_iff, Bool.not_eq_true, Bool.not_eq_true', Bool.not_eq_false,
             and_true, cp1, cp2, cp3, cp4]
  constructor
  · rintro ⟨h52, h53, h54, h55, h56, h57, h58, rest⟩
    exact ⟨h52, fun i h1 h2 => by interval_cases i <;> assumption, rest⟩
  · rintro ⟨h52, hfix, rest⟩
    exact ⟨h52, hfix 53 (by omega) (by omega), hfix 54 (by omega) (by omega),
           hfix 55 (by omega) (by omega), hfix 56 (by omega) (by omega),
           hfix 57 (by omega) (by omega), hfix 58 (by omega) (by omega), rest⟩

/-- C2 witness: a frame with all data bits clear and the fixed plus parity
bits set validates. -/
theorem C2_frame_validator_witness : ValidateBCD goodA goodB = none :=
  (C2_frame_validator goodA goodB).mpr
    ⟨by decide, fun i h1 h2 => by interval_cases i <;> decide, by decide,
     by decide, by decide, by decide, by decide⟩

end MSF60

namespace MSF60

open eMSFEventType

/-- C4: on a frame that passes validation, `DecodeFrame` returns true,
stores all seven calendar fields extracted by `ExtractBCD` from their
specified bit ranges with both validity flags set, copies the whole
structure into the caller's buffer when one is registered, and requests a
DATETIME_UPDATED notification (delivered when subscribed). -/
theorem C4_decode_frame_success (s : DecoderState)
    (h : ValidateBCD s.A_bits s.B_bits = none) :
    (DecodeFrame s).ok = true ∧
    (DecodeFrame s).state.LocalDateTime =
      { bHasValidTime := true, bDateTimeUpdated := true,
        Year := ExtractBCD s.A_bits 17 24, Month := ExtractBCD s.A_bits 25 29,
        Day := ExtractBCD s.A_bits 30 35, Hour := ExtractBCD s.A_bits 39 44,
        Minute := ExtractBCD s.A_bits 45 51, DOW := ExtractBCD s.A_bits 36 38,
        DST := ExtractBCD s.B_bits 58 58 } ∧
    (s.pClientDateTime.isSome = true →
      (DecodeFrame s).state.pClientDateTime = some ((DecodeFrame s).state.LocalDateTime)) ∧
    (DecodeFrame s).calls = [MSF_EVENT_DATETIME_UPDATED] ∧
    (s.pfClientEventCallback = true → s.ui32ClientEventMask &&& 4 ≠ 0 →
      (DecodeFrame s).delivered = [MSF_EVENT_DATETIME_UPDATED]) := by
  refine ⟨?_, ?_, ?_, ?_, ?_⟩ <;>
    simp only [DecodeFrame, h]
  all_goals first
    | rfl
    | (split <;> rfl)
    | (intro hc hm; simp [ClientEventNotify, eMSFEventType.val, apply_ite, hc, hm])
    | (intro hb; simp [hb])

/-- C4 witness: the valid frame `goodA` and `goodB` with a registered
buffer and a subscribed callback. -/
theorem C4_decode_frame_success_witness :
    ValidateBCD goodState.A_bits goodState.B_bits = none ∧
    ((DecodeFrame goodState).ok = true ∧
     (DecodeFrame goodState).state.LocalDateTime =
       { bHasValidTime := true, bDateTimeUpdated := true,
         Year := ExtractBCD goodState.A_bits 17 24, Month := ExtractBCD goodState.A_bits 25 29,
         Day := ExtractBCD goodState.A_bits 30 35, Hour := ExtractBCD goodState.A_bits 39 44,
         Minute := ExtractBCD goodState.A_bits 45 51, DOW := ExtractBCD goodState.A_bits 36 38,
         DST := ExtractBCD goodState.B_bits 58 58 } ∧
     (goodState.pClientDateTime.isSome = true →
       (DecodeFrame goodState).state.pClientDateTime =
         some ((DecodeFrame goodState).state.LocalDateTime)) ∧
     (DecodeFrame goodState).calls = [MSF_EVENT_DATETIME_UPDATED] ∧
     (goodState.pfClientEventCallback = true → goodState.ui32ClientEventMask &&& 4 ≠ 0 →
       (DecodeFrame goodState).delivered = [MSF_EVENT_DATETIME_UPDATED])) :=
  ⟨by decide, C4_decode_frame_success goodState (by decide)⟩

/-- C6: on a frame that fails validation, `DecodeFrame` returns false and
performs no extraction and no publication: the state (including the
stored date/time, its two flags and the caller's buffer) is unchanged and
no notification is requested or delivered. -/
theorem C6_decode_frame_failure (s : DecoderState) (e : VErr)
    (h : ValidateBCD s.A_bits s.B_bits = some e) :
    (DecodeFrame s).ok = false ∧ (DecodeFrame s).state = s ∧
    (DecodeFrame s).calls = [] ∧ (DecodeFrame s).delivered = [] := by
  simp [DecodeFrame, h]

/-- C6 witness: a frame with bit A52 set is rejected and nothing changes. -/
theorem C6_decode_frame_failure_witness :
    ValidateBCD badState.A_bits badState.B_bits = some .errA52Set ∧
    ((DecodeFrame badState).ok = false ∧ (DecodeFrame badState).state = badState ∧
     (DecodeFrame badState).calls = [] ∧ (DecodeFrame badState).delivered = []) :=
  ⟨by decide, C6_decode_frame_failure badState .errA52Set (by decide)⟩

end MSF60

namespace MSF60

open eMSFEventType

set_option maxRecDepth 4000

/-- C1: in every reachable state the bit cursor is at least 1, and on
every full-SYNC acquisition (a 500 ms ON span classified while HALF_SYNC
is active, arriving at a CARRIER_OFF edge) the cursor is reset to 1. -/
theorem C1_bit_cursor :
    (∀ s : DecoderState, Reachable s → 1 ≤ s.nBitNum) ∧
    (∀ (t : Nat) (s : DecoderState), s.bHalfSync = true →
      GetWidth (sub32 t s.T_LastOnStart) = .eWidth_500 →
      (HandleCarrierEvent CARRIER_OFF t s).state.nBitNum = 1) := by
  constructor
  · rintro s ⟨pdata, pfunc, mask, tr, rfl⟩
    apply runEdges_nBitNum_pos
    cases pdata <;> simp [MSF_EnableEventNotifications, MSF_InitDecoder, initState]
  · intro t s hhs hw
    have hcore : (HandleCarrierEventCore CARRIER_OFF t s).state.nBitNum = 1 := by
      rw [core_off]
      have he : handleOFF t s = offDispatch (GetWidth (sub32 t s.T_LastOnStart)) t s := rfl
      rw [he, hw]
      exact offDispatch_sync_reset t s hhs
    by_cases hr : (HandleCarrierEventCore CARRIER_OFF t s).state.bResyncNeeded = true
    · simp [HandleCarrierEvent, hr]
    · simp only [HandleCarrierEvent]
      rw [if_neg (by simpa using hr)]
      exact hcore

/-- C1 witness: the start state is reachable with cursor 1, and a 500 ms
ON span at a state with HALF_SYNC active resets the cursor to 1. -/
theorem C1_bit_cursor_witness :
    (Reachable startState ∧ 1 ≤ startState.nBitNum) ∧
    (halfSyncState.bHalfSync = true ∧
      GetWidth (sub32 500 halfSyncState.T_LastOnStart) = .eWidth_500 ∧
      (HandleCarrierEvent CARRIER_OFF 500 halfSyncState).state.nBitNum = 1) :=
  ⟨⟨⟨false, false, 0, [], rfl⟩, C1_bit_cursor.1 startState ⟨false, false, 0, [], rfl⟩⟩,
   ⟨rfl, by decide, C1_bit_cursor.2 500 halfSyncState rfl (by decide)⟩⟩

/-- C1 counterexample: after a clean SYNC acquisition and 59 accepted bit
cells the decoder is still SYNCED with the cursor at 60, outside [1,59]. -/
theorem C1_counterexample :
    Reachable frameEndState ∧ frameEndState.bSyncedFlag = true ∧
    ¬ frameEndState.nBitNum ≤ 59 := by
  have hsplit : frameEndState = runEdges (runEdges startState syncLead) (cellRun 59 2000) := by
    rw [show frameEndState = runEdges startState (syncLead ++ cellRun 59 2000) from rfl,
        runEdges_append]
  obtain ⟨hready, hnum⟩ := cellRun_ready 59 (runEdges startState syncLead) 2000 syncLead_ready.1
  refine ⟨⟨false, false, 0, syncLead ++ cellRun 59 2000, rfl⟩, ?_, ?_⟩
  · rw [hsplit]
    exact hready.1
  · rw [hsplit, hnum, syncLead_ready.2]
    omega

/-- C7 (amended): every edge event whose handling ends with the internal
resync flag raised discards the in-progress frame and clears all sync
state (cursor reset to 1, half-sync cleared, SYNCED cleared, flag
consumed), requests a SYNC_LOST notification, and the notification is
delivered to a subscribed listener regardless of whether the decoder was
previously SYNCED. -/
theorem C7_resync_amended (lvl t : Nat) (s : DecoderState)
    (h : (HandleCarrierEventCore lvl t s).state.bResyncNeeded = true) :
    (HandleCarrierEvent lvl t s).state.nBitNum = 1 ∧
    (HandleCarrierEvent lvl t s).state.bHalfSync = false ∧
    (HandleCarrierEvent lvl t s).state.bSyncedFlag = false ∧
    (HandleCarrierEvent lvl t s).state.bResyncNeeded = false ∧
    MSF_EVENT_SYNC_LOST ∈ (HandleCarrierEvent lvl t s).calls ∧
    (MSF_EVENT_SYNC_LOST ∈ (HandleCarrierEvent lvl t s).delivered ↔
      (s.pfClientEventCallback = true ∧ s.ui32ClientEventMask &&& 2 ≠ 0)) :=
  step_resync lvl t s h

/-- C7 witness: the first CARRIER_OFF edge after start, with a listener
subscribed to SYNC_LOST. -/
theorem C7_resync_amended_witness :
    (HandleCarrierEventCore CARRIER_OFF 1000 lostListenerState).state.bResyncNeeded = true ∧
    ((HandleCarrierEvent CARRIER_OFF 1000 lostListenerState).state.nBitNum = 1 ∧
     (HandleCarrierEvent CARRIER_OFF 1000 lostListenerState).state.bHalfSync = false ∧
     (HandleCarrierEvent CARRIER_OFF 1000 lostListenerState).state.bSyncedFlag = false ∧
     (HandleCarrierEvent CARRIER_OFF 1000 lostListenerState).state.bResyncNeeded = false ∧
     MSF_EVENT_SYNC_LOST ∈ (HandleCarrierEvent CARRIER_OFF 1000 lostListenerState).calls ∧
     (MSF_EVENT_SYNC_LOST ∈ (HandleCarrierEvent CARRIER_OFF 1000 lostListenerState).delivered ↔
       (lostListenerState.pfClientEventCallback = true ∧
        lostListenerState.ui32ClientEventMask &&& 2 ≠ 0))) :=
  ⟨by decide, C7_resync_amended CARRIER_OFF 1000 lostListenerState (by decide)⟩

/-- C7 counterexample: at the very first edge the decoder was never
SYNCED, yet a SYNC_LOST event is delivered to the subscribed listener. -/
theorem C7_counterexample :
    lostListenerState.bSyncedFlag = false ∧
    MSF_EVENT_SYNC_LOST ∈ (HandleCarrierEvent CARRIER_OFF 1000 lostListenerState).delivered := by
  exact ⟨rfl, by decide⟩

/-- C8: program start plus `MSF_InitDecoder` leaves the decoder unsynced
with half-sync clear and the cursor at 1; a non-null client buffer is
zeroed and registered, a null one leaves no buffer registered. -/
theorem C8_init_decoder (pdata : Bool) :
    (MSF_InitDecoder initState pdata).bSyncedFlag = false ∧
    (MSF_InitDecoder initState pdata).bHalfSync = false ∧
    (MSF_InitDecoder initState pdata).nBitNum = 1 ∧
    (MSF_InitDecoder initState pdata).pClientDateTime =
      (if pdata then some zeroDateTime else none) := by
  cases pdata <;> exact ⟨rfl, rfl, rfl, rfl⟩

/-- C8 witness: initialisation with a non-null buffer pointer. -/
theorem C8_init_decoder_witness :
    (MSF_InitDecoder initState true).bSyncedFlag = false ∧
    (MSF_InitDecoder initState true).bHalfSync = false ∧
    (MSF_InitDecoder initState true).nBitNum = 1 ∧
    (MSF_InitDecoder initState true).pClientDateTime =
      (if true then some zeroDateTime else none) :=
  C8_init_decoder true

/-- C9: with bit cells continuing to arrive after the 59th cell and no
intervening SYNC preamble, the decoder reaches a SYNCED state with the
cursor at 64, and the next in-cell CARRIER_ON edge passes bit index 64 to
`setBit`, whose byte index 64 >>> 3 = 8 lies outside the 8-byte arrays. -/
theorem C9_out_of_bounds_write :
    Reachable overrunState ∧ overrunState.bSyncedFlag = true ∧
    overrunState.nBitNum = 64 ∧
    (HandleCarrierEvent CARRIER_ON 65100 overrunState).bitWrites = [64] ∧
    (64 : Nat) >>> 3 = 8 := by
  have hsplit : overrunState = runEdges (runEdges startState syncLead) (cellRun 63 2000) := by
    rw [show overrunState = runEdges startState (syncLead ++ cellRun 63 2000) from rfl,
        runEdges_append]
  obtain ⟨hready, hnum⟩ := cellRun_ready 63 (runEdges startState syncLead) 2000 syncLead_ready.1
  rw [show (2000 + 1000 * 63 : Nat) = 65000 from by norm_num] at hready
  have hnum64 : overrunState.nBitNum = 64 := by
    rw [hsplit, hnum, syncLead_ready.2]
  have hready' : CellReady overrunState 65000 := by
    rw [hsplit]
    exact hready
  refine ⟨⟨false, false, 0, syncLead ++ cellRun 63 2000, rfl⟩, hready'.1, hnum64, ?_, by decide⟩
  rw [show (65100 : Nat) = 65000 + 100 from by norm_num, cell_on_step overrunState 65000 hready']
  simp [hnum64]

/-- C10: whatever the level and timing of the very first carrier edge
after program start, its handling ends in a resync because the internal
resync-needed flag starts true: afterwards the decoder is unsynced with
the cursor at 1 and half-sync clear, a SYNC_LOST notification is
requested, and it is delivered exactly when a listener subscribed to it. -/
theorem C10_first_edge (lvl t : Nat) (pdata pfunc : Bool) (mask : Nat) :
    (HandleCarrierEvent lvl t
      (MSF_EnableEventNotifications (MSF_InitDecoder initState pdata) pfunc mask)).state.bSyncedFlag
        = false ∧
    (HandleCarrierEvent lvl t
      (MSF_EnableEventNotifications (MSF_InitDecoder initState pdata) pfunc mask)).state.nBitNum
        = 1 ∧
    (HandleCarrierEvent lvl t
      (MSF_EnableEventNotifications (MSF_InitDecoder initState pdata) pfunc mask)).state.bHalfSync
        = false ∧
    MSF_EVENT_SYNC_LOST ∈ (HandleCarrierEvent lvl t
      (MSF_EnableEventNotifications (MSF_InitDecoder initState pdata) pfunc mask)).calls ∧
    (MSF_EVENT_SYNC_LOST ∈ (HandleCarrierEvent lvl t
      (MSF_EnableEventNotifications (MSF_InitDecoder initState pdata) pfunc mask)).delivered ↔
      (pfunc = true ∧ mask &&& 2 ≠ 0)) := by
  set s0 := MSF_EnableEventNotifications (MSF_InitDecoder initState pdata) pfunc mask with hs0
  have hhs : s0.bHalfSync = false := by cases pdata <;> rfl
  have hrs : s0.bResyncNeeded = true := by cases pdata <;> rfl
  have hpf : s0.pfClientEventCallback = pfunc := by cases pdata <;> rfl
  have hmask : s0.ui32ClientEventMask = mask := by cases pdata <;> rfl
  have hq := core_quiet lvl t s0 hhs
  have hcore : (HandleCarrierEventCore lvl t s0).state.bResyncNeeded = true := by
    rcases hq.2.2 with h | h
    · rw [h, hrs]
    · exact h
  obtain ⟨hn, hh, hs, hr2, hcalls, hdel⟩ := step_resync lvl t s0 hcore
  rw [hpf, hmask] at hdel
  exact ⟨hs, hn, hh, hcalls, hdel⟩

/-- C10 witness: the first edge at a concrete level and time, with a
subscribed SYNC_LOST listener. -/
theorem C10_first_edge_witness :
    (HandleCarrierEvent CARRIER_OFF 1000
      (MSF_EnableEventNotifications (MSF_InitDecoder initState false) true 2)).state.bSyncedFlag
        = false ∧
    (HandleCarrierEvent CARRIER_OFF 1000
      (MSF_EnableEventNotifications (MSF_InitDecoder initState false) true 2)).state.nBitNum
        = 1 ∧
    (HandleCarrierEvent CARRIER_OFF 1000
      (MSF_EnableEventNotifications (MSF_InitDecoder initState false) true 2)).state.bHalfSync
        = false ∧
    MSF_EVENT_SYNC_LOST ∈ (HandleCarrierEvent CARRIER_OFF 1000
      (MSF_EnableEventNotifications (MSF_InitDecoder initState false) true 2)).calls ∧
    (MSF_EVENT_SYNC_LOST ∈ (HandleCarrierEvent CARRIER_OFF 1000
      (MSF_EnableEventNotifications (MSF_InitDecoder initState false) true 2)).delivered ↔
      (true = true ∧ (2 : Nat) &&& 2 ≠ 0)) :=
  C10_first_edge CARRIER_OFF 1000 false true 2

end MSF60
